import Mathlib

/-!
Verification of the unifi-apis build scripts (`build_docs.py`, `update_readme.py`):
version discovery (`get_spec_files`), HTML/README templating, and the
properties of the generated artifacts. Filesystem directories are modelled as
`Option (List String)` (a missing directory is `none`; an existing directory is
the list of its entry names in enumeration order), or `Option (List (String × String))`
when file contents matter (name paired with content).
-/

namespace UnifiApis

/-- Index of the last occurrence of a character in a list of characters, if any. -/
def lastIdxOf (c : Char) : List Char → Option Nat
  | [] => none
  | x :: xs =>
    match lastIdxOf c xs with
    | some i => some (i + 1)
    | none => if x = c then some 0 else none

/-- Model of Python `pathlib.Path.stem`: the file name with its last extension
stripped; a dot that is the first or the last character of the name does not
start an extension. -/
def stem (name : String) : String :=
  match lastIdxOf '.' name.data with
  | some i => if 0 < i ∧ i + 1 < name.data.length then String.mk (name.data.take i) else name
  | none => name

/-- Model of Python `str.split(".")` on the character list of a string. -/
def splitDots : List Char → List (List Char)
  | [] => [[]]
  | c :: cs =>
    match splitDots cs with
    | [] => if c = '.' then [[], []] else [[c]]
    | h :: t => if c = '.' then [] :: h :: t else (c :: h) :: t

/-- Numeric value of a list of decimal digit characters. -/
def natOfDigits (ds : List Char) : Nat :=
  ds.foldl (fun n c => n * 10 + (c.toNat - 48)) 0

/-- Modelled from the spec: the third-party semantic-version parser
(`packaging.version.parse`), declared by the spec as an out-of-scope
collaborator whose contract is: a version identifier is a dot-separated
sequence of numeric components, and parsing fails (raises) on non-numeric or
non-dot-separated input. `none` models the raised `InvalidVersion`. -/
def parseVersion (s : String) : Option (List Nat) :=
  let comps := splitDots s.data
  if comps.all (fun c => !c.isEmpty && c.all Char.isDigit)
  then some (comps.map natOfDigits)
  else none

/-- The sort key used by `get_spec_files`: the parsed version of the file stem
(defaulting to the empty component list, which is never used on the success
path because unparsable stems abort the run first). -/
def keyOf (f : String) : List Nat := (parseVersion (stem f)).getD []

/-- Component-wise numeric comparison of parsed versions, the shorter list
padded with zeros (how the collaborator's totally-ordered version values
compare on release components). -/
def verLE : List Nat → List Nat → Bool
  | [], _ => true
  | a :: as, [] => if 0 < a then false else verLE as []
  | a :: as, b :: bs => if a < b then true else if b < a then false else verLE as bs

theorem verLE_total (a b : List Nat) : verLE a b = true ∨ verLE b a = true := by
  induction a generalizing b with
  | nil => left; rfl
  | cons x xs ih =>
    cases b with
    | nil => right; rfl
    | cons y ys =>
      rcases Nat.lt_trichotomy x y with h | h | h
      · left; simp [verLE, h]
      · subst h
        rcases ih ys with h2 | h2
        · left; simp [verLE, h2]
        · right; simp [verLE, h2]
      · right; simp [verLE, h]

theorem verLE_nil_right_all {a : List Nat} (c : List Nat)
    (h : verLE a [] = true) : verLE a c = true := by
  induction a generalizing c with
  | nil => rfl
  | cons x xs ih =>
    simp only [verLE] at h
    by_cases hx : 0 < x
    · simp [hx] at h
    · have hx0 : x = 0 := by omega
      subst hx0
      simp only [if_neg hx] at h
      cases c with
      | nil => simpa [verLE] using ih [] h
      | cons y ys =>
        by_cases hy : 0 < y
        · simp [verLE, hy]
        · have hy0 : y = 0 := by omega
          subst hy0
          simpa [verLE] using ih ys h

theorem verLE_trans {a b c : List Nat}
    (h1 : verLE a b = true) (h2 : verLE b c = true) : verLE a c = true := by
  induction a generalizing b c with
  | nil => rfl
  | cons x xs ih =>
    cases b with
    | nil => exact verLE_nil_right_all c h1
    | cons y ys =>
      cases c with
      | nil =>
        simp only [verLE] at h2
        by_cases hy : 0 < y
        · simp [hy] at h2
        · have hy0 : y = 0 := by omega
          subst hy0
          simp only [if_neg hy] at h2
          simp only [verLE] at h1
          by_cases hx : 0 < x
          · simp [hx, Nat.not_lt_zero] at h1
          · have hx0 : x = 0 := by omega
            subst hx0
            simp only [Nat.lt_irrefl, if_neg (by omega : ¬ (0:Nat) < 0)] at h1
            simp only [verLE, if_neg hx]
            exact ih h1 h2
      | cons z zs =>
        simp only [verLE] at h1 h2 ⊢
        by_cases hxy : x < y
        · by_cases hyz : y < z
          · simp [show x < z by omega]
          · by_cases hzy : z < y
            · simp [hxy, hyz, hzy] at h2
            · have : y = z := by omega
              subst this
              simp [hxy]
        · by_cases hyx : y < x
          · simp [hxy, hyx] at h1
          · have hxy0 : x = y := by omega
            subst hxy0
            simp only [if_neg hxy, if_neg hyx] at h1
            by_cases hyz : x < z
            · simp [hyz]
            · by_cases hzy : z < x
              · simp [hyz, hzy] at h2
              · have : x = z := by omega
                subst this
                simp only [if_neg hyz, if_neg hzy] at h2 ⊢
                exact ih h1 h2

/-- The descending order used when sorting spec files: `specGE f g` holds when
the parsed version of `f` is at least the parsed version of `g` (so a sort by
this relation puts the newest version first, matching Python's
`sorted(..., key=version, reverse=True)`). -/
def specGE (f g : String) : Prop := verLE (keyOf g) (keyOf f) = true

instance : DecidableRel specGE := fun f g => by
  unfold specGE; infer_instance

instance : IsTotal String specGE :=
  ⟨fun f g => verLE_total (keyOf g) (keyOf f)⟩

instance : IsTrans String specGE :=
  ⟨fun _ _ _ h1 h2 => verLE_trans h2 h1⟩

/-- Model of `path.glob("*.json")`: the directory entries whose names end in
`.json`, in enumeration order. -/
def globJson (names : List String) : List String :=
  names.filter (fun f => decide ((".json").data <:+ f.data))

end UnifiApis

namespace BuildDocs

open UnifiApis

/-- `get_spec_files` from `build_docs.py`: a missing directory yields `[]`;
otherwise the `*.json` entries are sorted newest-version-first by the parsed
stem. Python's `sorted` computes every key before comparing, so the first file
(in enumeration order) whose stem fails to parse aborts the run with the
collaborator's `InvalidVersion` error; this is the `Except.error` branch.
Python's `sorted` with `reverse=True` is a stable descending sort, modelled by
the stable `List.insertionSort` under `specGE`. -/
def get_spec_files (dir : Option (List String)) : Except String (List String) :=
  match dir with
  | none => Except.ok []
  | some names =>
    let files := globJson names
    match files.find? (fun f => (parseVersion (stem f)).isNone) with
    | some f => Except.error ("Invalid version: " ++ stem f)
    | none => Except.ok (List.insertionSort specGE files)

end BuildDocs

namespace UpdateReadme

open UnifiApis

/-- `get_spec_files` from `update_readme.py`, a verbatim copy of the one in
`build_docs.py`, embedded identically. -/
def get_spec_files (dir : Option (List String)) : Except String (List String) :=
  match dir with
  | none => Except.ok []
  | some names =>
    let files := globJson names
    match files.find? (fun f => (parseVersion (stem f)).isNone) with
    | some f => Except.error ("Invalid version: " ++ stem f)
    | none => Except.ok (List.insertionSort specGE files)

end UpdateReadme




namespace UnifiApis

/-- Python truthiness of `v or d` for an optional string: `None` and the empty
string are falsy and fall back to the default. -/
def pyOr (v : Option String) (d : String) : String :=
  match v with
  | none => d
  | some s => if s = "" then d else s

/-- Python `str(...)` interpolation of an optional string into an f-string:
`None` renders as the literal text `None`. -/
def pyStr (v : Option String) : String :=
  match v with
  | none => "None"
  | some s => s

/-- Python `"\n".join(...)`. -/
def joinNL : List String → String
  | [] => ""
  | [x] => x
  | x :: xs => x ++ "\n" ++ joinNL xs

end UnifiApis

namespace BuildDocs

open UnifiApis

/-- `spec_to_version` from `generate_index_html`: the spec file's stem. -/
def spec_to_version (spec_file : String) : String := stem spec_file

/-- `generate_redoc_html` from `build_docs.py`: the standalone ReDoc page
content (its write to the output path is modelled in `mainOutputs`). -/
def generate_redoc_html (spec_filename title : String) : String :=
  "<!DOCTYPE html>\n<html lang=\"en\">\n<head>\n    <meta charset=\"UTF-8\">\n    <meta name=\"viewport\" content=\"width=device-width, initial-scale=1.0\">\n    <title>" ++
    (title ++
    ("</title>\n    <style>\n        body \x7b\n            margin: 0;\n            padding: 0;\n        \x7d\n    </style>\n</head>\n<body>\n    <redoc spec-url=\"" ++
    (spec_filename ++
    ("\"></redoc>\n    <script src=\"https://cdn.redoc.ly/redoc/latest/bundles/redoc.standalone.js\"></script>\n</body>\n</html>\n"))))

/-- One row of the older-versions list: the f-string that
`generate_version_rows` appends per iteration. -/
def versionRow (api_type ver : String) : String :=
  "                        <div class=\"version-row\">\n                            <span class=\"version-num\">" ++
    (ver ++
    ("</span>\n                            <div class=\"version-links\">\n                                <a href=\"" ++
    (api_type ++
    ("-" ++
    (ver ++
    (".html\" class=\"btn btn-secondary btn-xs\">Docs</a>\n                                <a href=\"" ++
    (api_type ++
    ("-" ++
    (ver ++
    (".json\" class=\"btn btn-secondary btn-xs\">JSON</a>\n                            </div>\n                        </div>\n"))))))))))

/-- `generate_version_rows` from `generate_index_html`: one row per spec after
the first (the latest is skipped), accumulated in order starting from the
empty string. -/
def generate_version_rows (specs : List String) (api_type : String) : String :=
  ((specs.drop 1).map (fun spec => versionRow api_type (spec_to_version spec))).foldl
    (fun rows r => rows ++ r) ""

/-- The older-versions toggle block of `generate_index_html`; the source
repeats this f-string verbatim for the network and the protect card, `older`
being that card's rendered rows. -/
def versionsToggle (older : String) : String :=
  "                    <button class=\"versions-toggle\" onclick=\"toggleVersions(this)\">\n                        <span>Older versions</span>\n                        <svg viewBox=\"0 0 24 24\"><path d=\"M7.41 8.59L12 13.17l4.59-4.58L18 10l-6 6-6-6 1.41-1.41z\"/></svg>\n                    </button>\n                    <div class=\"versions-list\">\n" ++
    (older ++
    ("                    </div>"))

/-- `generate_index_html` from `build_docs.py`: the full `index.html` content
for the two discovered (already sorted) spec lists. -/
def generate_index_html (network_specs protect_specs : List String) : String :=
  let network_latest : Option String := network_specs.head?.map spec_to_version
  let protect_latest : Option String := protect_specs.head?.map spec_to_version
  let network_older := generate_version_rows network_specs ("network")
  let protect_older := generate_version_rows protect_specs ("protect")
  let network_toggle := if 1 < network_specs.length then versionsToggle network_older else ""
  let protect_toggle := if 1 < protect_specs.length then versionsToggle protect_older else ""
  let nCount := toString network_specs.length
  let pCount := toString protect_specs.length
  let nPlural := if network_specs.length = 1 then "" else "s"
  let pPlural := if protect_specs.length = 1 then "" else "s"
  let nLatestDisp := pyOr network_latest ("N/A")
  let pLatestDisp := pyOr protect_latest ("N/A")
  let nLatestStr := pyStr network_latest
  let pLatestStr := pyStr protect_latest
  "<!DOCTYPE html>\n<html lang=\"en\">\n<head>\n    <meta charset=\"UTF-8\">\n    <meta name=\"viewport\" content=\"width=device-width, initial-scale=1.0\">\n    <title>UniFi API Documentation</title>\n    <style>\n        * \x7b\n            margin: 0;\n            padding: 0;\n            box-sizing: border-box;\n        \x7d\n\n        body \x7b\n            font-family: -apple-system, BlinkMacSystemFont, \x27Segoe UI\x27, Roboto, Oxygen, Ubuntu, Cantarell, sans-serif;\n            line-height: 1.6;\n            color: #333;\n            background: #1a1a2e;\n            min-height: 100vh;\n            padding: 2rem;\n        \x7d\n\n        .container \x7b\n            max-width: 1100px;\n            margin: 0 auto;\n        \x7d\n\n        header \x7b\n            text-align: center;\n            margin-bottom: 2rem;\n            color: white;\n        \x7d\n\n        h1 \x7b\n            font-size: 2.2rem;\n            font-weight: 700;\n            margin-bottom: 0.5rem;\n        \x7d\n\n        .subtitle \x7b\n            color: rgba(255,255,255,0.7);\n            font-size: 1rem;\n        \x7d\n\n        .disclaimer \x7b\n            background: rgba(255, 193, 7, 0.15);\n            border: 1px solid rgba(255, 193, 7, 0.3);\n            color: #ffc107;\n            padding: 0.75rem 1rem;\n            margin-bottom: 2rem;\n            border-radius: 8px;\n            font-size: 0.9rem;\n            text-align: center;\n        \x7d\n\n        .api-grid \x7b\n            display: grid;\n            grid-template-columns: 1fr 1fr;\n            gap: 1.5rem;\n            margin-bottom: 2rem;\n        \x7d\n\n        @media (max-width: 800px) \x7b\n            .api-grid \x7b\n                grid-template-columns: 1fr;\n            \x7d\n        \x7d\n\n        .api-card \x7b\n            background: #16213e;\n            border-radius: 16px;\n            overflow: hidden;\n            box-shadow: 0 4px 20px rgba(0,0,0,0.3);\n            transition: transform 0.2s ease, box-shadow 0.2s ease;\n        \x7d\n\n        .api-card:hover \x7b\n            transform: translateY(-2px);\n            box-shadow: 0 8px 30px rgba(0,0,0,0.4);\n        \x7d\n\n        .card-header \x7b\n            padding: 1.5rem;\n            display: flex;\n            align-items: center;\n            gap: 1rem;\n        \x7d\n\n        .card-header.network \x7b\n            background: linear-gradient(135deg, #0f4c75 0%, #1a237e 100%);\n        \x7d\n\n        .card-header.protect \x7b\n            background: linear-gradient(135deg, #5c2a7e 0%, #7b1fa2 100%);\n        \x7d\n\n        .card-icon \x7b\n            width: 48px;\n            height: 48px;\n            background: rgba(255,255,255,0.15);\n            border-radius: 12px;\n            display: flex;\n            align-items: center;\n            justify-content: center;\n        \x7d\n\n        .card-icon svg \x7b\n            width: 24px;\n            height: 24px;\n            fill: white;\n        \x7d\n\n        .card-title \x7b\n            flex: 1;\n        \x7d\n\n        .card-title h2 \x7b\n            color: white;\n            font-size: 1.3rem;\n            font-weight: 600;\n            margin-bottom: 0.15rem;\n        \x7d\n\n        .card-title .version-count \x7b\n            color: rgba(255,255,255,0.7);\n            font-size: 0.85rem;\n        \x7d\n\n        .card-body \x7b\n            padding: 1.5rem;\n        \x7d\n\n        .latest-section \x7b\n            margin-bottom: 1rem;\n        \x7d\n\n        .latest-label \x7b\n            font-size: 0.75rem;\n            text-transform: uppercase;\n            letter-spacing: 0.05em;\n            color: #888;\n            margin-bottom: 0.5rem;\n        \x7d\n\n        .latest-row \x7b\n            display: flex;\n            align-items: center;\n            justify-content: space-between;\n            gap: 1rem;\n        \x7d\n\n        .latest-version \x7b\n            font-size: 1.5rem;\n            font-weight: 700;\n            color: white;\n        \x7d\n\n        .btn-group \x7b\n            display: flex;\n            gap: 0.5rem;\n        \x7d\n\n        .btn \x7b\n            padding: 0.5rem 1rem;\n            border-radius: 6px;\n            text-decoration: none;\n            font-weight: 500;\n            font-size: 0.85rem;\n            transition: all 0.2s ease;\n            display: inline-flex;\n            align-items: center;\n            gap: 0.4rem;\n            border: none;\n            cursor: pointer;\n        \x7d\n\n        .btn svg \x7b\n            width: 14px;\n            height: 14px;\n        \x7d\n\n        .btn-primary \x7b\n            background: #3b82f6;\n            color: white;\n        \x7d\n\n        .btn-primary:hover \x7b\n            background: #2563eb;\n        \x7d\n\n        .btn-secondary \x7b\n            background: rgba(255,255,255,0.1);\n            color: #ccc;\n        \x7d\n\n        .btn-secondary:hover \x7b\n            background: rgba(255,255,255,0.15);\n            color: white;\n        \x7d\n\n        .versions-toggle \x7b\n            width: 100%;\n            padding: 0.75rem 1rem;\n            background: rgba(255,255,255,0.05);\n            border: 1px solid rgba(255,255,255,0.1);\n            border-radius: 8px;\n            color: #999;\n            font-size: 0.9rem;\n            cursor: pointer;\n            display: flex;\n            align-items: center;\n            justify-content: space-between;\n            transition: all 0.2s ease;\n        \x7d\n\n        .versions-toggle:hover \x7b\n            background: rgba(255,255,255,0.08);\n            border-color: rgba(255,255,255,0.2);\n            color: #ccc;\n        \x7d\n\n        .versions-toggle svg \x7b\n            width: 16px;\n            height: 16px;\n            fill: currentColor;\n            transition: transform 0.2s ease;\n        \x7d\n\n        .versions-toggle.open svg \x7b\n            transform: rotate(180deg);\n        \x7d\n\n        .versions-list \x7b\n            display: none;\n            margin-top: 0.75rem;\n        \x7d\n\n        .versions-list.open \x7b\n            display: block;\n        \x7d\n\n        .version-row \x7b\n            display: flex;\n            align-items: center;\n            justify-content: space-between;\n            padding: 0.6rem 0.75rem;\n            background: rgba(255,255,255,0.03);\n            border-radius: 6px;\n            margin-bottom: 0.4rem;\n            transition: background 0.2s ease;\n        \x7d\n\n        .version-row:hover \x7b\n            background: rgba(255,255,255,0.08);\n        \x7d\n\n        .version-row:last-child \x7b\n            margin-bottom: 0;\n        \x7d\n\n        .version-num \x7b\n            color: #ddd;\n            font-weight: 500;\n            font-size: 0.9rem;\n            font-family: \x27SF Mono\x27, \x27Fira Code\x27, \x27Consolas\x27, monospace;\n        \x7d\n\n        .version-links \x7b\n            display: flex;\n            gap: 0.5rem;\n        \x7d\n\n        .btn-xs \x7b\n            padding: 0.3rem 0.6rem;\n            font-size: 0.75rem;\n        \x7d\n\n        footer \x7b\n            text-align: center;\n            color: rgba(255,255,255,0.4);\n            font-size: 0.85rem;\n            padding-top: 1rem;\n        \x7d\n\n        footer a \x7b\n            color: rgba(255,255,255,0.6);\n            text-decoration: none;\n        \x7d\n\n        footer a:hover \x7b\n            color: white;\n            text-decoration: underline;\n        \x7d\n\n        footer p \x7b\n            margin-bottom: 0.3rem;\n        \x7d\n    </style>\n</head>\n<body>\n    <div class=\"container\">\n        <header>\n            <h1>UniFi API Documentation</h1>\n            <p class=\"subtitle\">OpenAPI 3.1.0 Specifications for UniFi Network and " ++
    ("Protect API" ++
    ("s</p>\n        </header>\n\n        <div class=\"disclaimer\">\n            <strong>Disclaimer:</strong> Not supported by Ubiquiti Inc. Community-maintained specifications extracted from UniFi applications.\n        </div>\n\n        <div class=\"api-grid\">\n            <!-- " ++
    ("Network API" ++
    (" Card -->\n            <div class=\"api-card\">\n                <div class=\"card-header network\">\n                    <div class=\"card-icon\">\n                        <svg viewBox=\"0 0 24 24\" xmlns=\"http://www.w3.org/2000/svg\">\n                            <path d=\"M12 2C6.48 2 2 6.48 2 12s4.48 10 10 10 10-4.48 10-10S17.52 2 12 2zm-1 17.93c-3.95-.49-7-3.85-7-7.93 0-.62.08-1.21.21-1.79L9 15v1c0 1.1.9 2 2 2v1.93zm6.9-2.54c-.26-.81-1-1.39-1.9-1.39h-1v-3c0-.55-.45-1-1-1H8v-2h2c.55 0 1-.45 1-1V7h2c1.1 0 2-.9 2-2v-.41c2.93 1.19 5 4.06 5 7.41 0 2.08-.8 3.97-2.1 5.39z\"/>\n                        </svg>\n                    </div>\n                    <div class=\"card-title\">\n                        <h2>" ++
    ("Network API" ++
    ("</h2>\n                        " ++
    ("<span class=\"version-count\">" ++
    (nCount ++
    (" version" ++
    (nPlural ++
    (" available" ++
    ("</span>" ++
    ("\n                    </div>\n                </div>\n                <div class=\"card-body\">\n                    <div class=\"latest-section\">\n                        <div class=\"latest-label\">Latest Version</div>\n                        <div class=\"latest-row\">\n                            " ++
    ("<span class=\"latest-version\">" ++
    (nLatestDisp ++
    ("</span>" ++
    ("\n                            <div class=\"btn-group\">\n                                <a " ++
    ("href=\"network-" ++
    (nLatestStr ++
    (".html\"" ++
    (" class=\"btn btn-primary\">\n                                    <svg viewBox=\"0 0 24 24\" fill=\"currentColor\"><path d=\"M14 2H6c-1.1 0-2 .9-2 2v16c0 1.1.9 2 2 2h12c1.1 0 2-.9 2-2V8l-6-6zm-1 7V3.5L18.5 9H13z\"/></svg>\n                                    Docs\n                                </a>\n                                <a " ++
    ("href=\"network-" ++
    (nLatestStr ++
    (".json\"" ++
    (" class=\"btn btn-secondary\">\n                                    <svg viewBox=\"0 0 24 24\" fill=\"currentColor\"><path d=\"M19 9h-4V3H9v6H5l7 7 7-7zM5 18v2h14v-2H5z\"/></svg>\n                                    JSON\n                                </a>\n                            </div>\n                        </div>\n                    </div>\n" ++
    (network_toggle ++
    ("\n                </div>\n            </div>\n\n            <!-- " ++
    ("Protect API" ++
    (" Card -->\n            <div class=\"api-card\">\n                <div class=\"card-header protect\">\n                    <div class=\"card-icon\">\n                        <svg viewBox=\"0 0 24 24\" xmlns=\"http://www.w3.org/2000/svg\">\n                            <path d=\"M12 1L3 5v6c0 5.55 3.84 10.74 9 12 5.16-1.26 9-6.45 9-12V5l-9-4zm0 10.99h7c-.53 4.12-3.28 7.79-7 8.94V12H5V6.3l7-3.11v8.8z\"/>\n                        </svg>\n                    </div>\n                    <div class=\"card-title\">\n                        <h2>" ++
    ("Protect API" ++
    ("</h2>\n                        " ++
    ("<span class=\"version-count\">" ++
    (pCount ++
    (" version" ++
    (pPlural ++
    (" available" ++
    ("</span>" ++
    ("\n                    </div>\n                </div>\n                <div class=\"card-body\">\n                    <div class=\"latest-section\">\n                        <div class=\"latest-label\">Latest Version</div>\n                        <div class=\"latest-row\">\n                            " ++
    ("<span class=\"latest-version\">" ++
    (pLatestDisp ++
    ("</span>" ++
    ("\n                            <div class=\"btn-group\">\n                                <a " ++
    ("href=\"protect-" ++
    (pLatestStr ++
    (".html\"" ++
    (" class=\"btn btn-primary\">\n                                    <svg viewBox=\"0 0 24 24\" fill=\"currentColor\"><path d=\"M14 2H6c-1.1 0-2 .9-2 2v16c0 1.1.9 2 2 2h12c1.1 0 2-.9 2-2V8l-6-6zm-1 7V3.5L18.5 9H13z\"/></svg>\n                                    Docs\n                                </a>\n                                <a " ++
    ("href=\"protect-" ++
    (pLatestStr ++
    (".json\"" ++
    (" class=\"btn btn-secondary\">\n                                    <svg viewBox=\"0 0 24 24\" fill=\"currentColor\"><path d=\"M19 9h-4V3H9v6H5l7 7 7-7zM5 18v2h14v-2H5z\"/></svg>\n                                    JSON\n                                </a>\n                            </div>\n                        </div>\n                    </div>\n" ++
    (protect_toggle ++
    ("\n                </div>\n            </div>\n        </div>\n\n        <footer>\n            <p>Generated automatically from OpenAPI specifications</p>\n            <p><a href=\"https://github.com/beezly/unifi-apis\">View on GitHub</a></p>\n        </footer>\n    </div>\n\n    <script>\n        function toggleVersions(button) \x7b\n            button.classList.toggle(\x27open\x27);\n            const list = button.nextElementSibling;\n            list.classList.toggle(\x27open\x27);\n        \x7d\n    </script>\n</body>\n</html>\n"))))))))))))))))))))))))))))))))))))))))))))))))))))

/-- Content lookup in a modelled directory, for `shutil.copy2`. -/
def contentOf (dir : Option (List (String × String))) (name : String) : String :=
  (((dir.getD []).find? (fun p => p.1 == name)).map (fun p => p.2)).getD ""

/-- The entry names of a modelled directory, as read by discovery. -/
def dirNames (dir : Option (List (String × String))) : Option (List String) :=
  dir.map (fun l => l.map (fun p => p.1))

/-- The two files `main` writes for one network spec: the copied JSON and its
ReDoc page, at their `docs/` output paths. -/
def networkOutputs (net : Option (List (String × String))) (spec : String) :
    List (String × String) :=
  [("docs/network-" ++ stem spec ++ ".json", contentOf net spec),
   ("docs/network-" ++ stem spec ++ ".html",
     generate_redoc_html ("network-" ++ stem spec ++ ".json")
       ("UniFi Network API " ++ stem spec))]

/-- The two files `main` writes for one protect spec. -/
def protectOutputs (prot : Option (List (String × String))) (spec : String) :
    List (String × String) :=
  [("docs/protect-" ++ stem spec ++ ".json", contentOf prot spec),
   ("docs/protect-" ++ stem spec ++ ".html",
     generate_redoc_html ("protect-" ++ stem spec ++ ".json")
       ("UniFi Protect API " ++ stem spec))]

/-- `main` from `build_docs.py` as the ordered list of (path, content) files it
writes, or the error that aborts the run: discovery for both families happens
before any write, then per-spec copies and pages, then the index page. -/
def mainOutputs (net prot : Option (List (String × String))) :
    Except String (List (String × String)) :=
  match get_spec_files (dirNames net) with
  | Except.error e => Except.error e
  | Except.ok network_specs =>
    match get_spec_files (dirNames prot) with
    | Except.error e => Except.error e
    | Except.ok protect_specs =>
      Except.ok (((network_specs.map (networkOutputs net)).flatten) ++
        ((protect_specs.map (protectOutputs prot)).flatten) ++
        [("docs/index.html", generate_index_html network_specs protect_specs)])

end BuildDocs

namespace UpdateReadme

open UnifiApis

/-- The README list line for one network spec: a link titled by the stem,
pointing at the raw spec file in its family directory. -/
def networkLink (spec : String) : String :=
  "- [" ++ stem spec ++ "](unifi-network/" ++ spec ++ ")"

/-- The README list line for one protect spec. -/
def protectLink (spec : String) : String :=
  "- [" ++ stem spec ++ "](unifi-protect/" ++ spec ++ ")"

/-- The README content `update_readme` writes, as a function of the two
discovered (already sorted) spec lists. -/
def readme_content (network_specs protect_specs : List String) : String :=
  let network_versions := joinNL (network_specs.map networkLink)
  let protect_versions := joinNL (protect_specs.map protectLink)
  let nCount := toString network_specs.length
  let pCount := toString protect_specs.length
  let nDisplay := if network_versions = "" then "No versions available yet" else network_versions
  let pDisplay := if protect_versions = "" then "No versions available yet" else protect_versions
  let nSample := network_specs.head?.getD ("...")
  let pSample := protect_specs.head?.getD ("...")
  let nSampleV := network_specs.head?.getD ("VERSION.json")
  let pSampleV := protect_specs.head?.getD ("VERSION.json")
  "# UniFi API OpenAPI Specifications\n\nThis repository contains OpenAPI 3.1.0 specifications for UniFi Network and Protect APIs, automatically extracted from UniFi controllers.\n\n## Available Versions\n\n### UniFi Network API\n\n" ++
    (nCount ++
    (" version(s) available:" ++
    ("\n\n" ++
    (nDisplay ++
    ("\n\n\n### UniFi Protect API\n\n" ++
    (pCount ++
    (" version(s) available:" ++
    ("\n\n" ++
    (pDisplay ++
    ("\n\n\n## Directory Structure\n\n\x60\x60\x60\n" ++
    ("unifi-network/\n  ├── " ++
    (nSample ++
    ("\n  └── ..." ++
    ("\n" ++
    ("unifi-protect/\n  ├── " ++
    (pSample ++
    ("\n  └── ..." ++
    ("\n\x60\x60\x60\n\n## Usage\n\nThese OpenAPI specifications can be used to:\n- Generate API clients in various languages\n- Generate API documentation\n- Validate API requests and responses\n- Understand API capabilities and changes between versions\n\n## Generating Python Clients\n\n\x60\x60\x60bash\n# Install openapi-python-client\npip install openapi-python-client\n\n# Generate Network API client\nopenapi-python-client generate --path unifi-network/" ++
    (nSampleV ++
    (" --output-path unifi-network-client\n\n# Generate Protect API client\nopenapi-python-client generate --path unifi-protect/" ++
    (pSampleV ++
    (" --output-path unifi-protect-client\n\x60\x60\x60\n\n## Notes\n\n- These specifications are automatically extracted from UniFi controllers\n- Specifications are in OpenAPI 3.1.0 format\n- Each version is stored as a separate file for easy comparison and version management\n- Updates are published automatically when new versions are detected\n"))))))))))))))))))))))

/-- `update_readme` from `update_readme.py`: discovery for both families, then
the README content it writes (or the aborting error). -/
def update_readme (net prot : Option (List String)) : Except String String :=
  match get_spec_files net with
  | Except.error e => Except.error e
  | Except.ok network_specs =>
    match get_spec_files prot with
    | Except.error e => Except.error e
    | Except.ok protect_specs => Except.ok (readme_content network_specs protect_specs)

end UpdateReadme

namespace UnifiApis

/-- Substring scan: `scanContains n h` is true when `n` occurs contiguously in
`h`. Written tail-recursively so concrete evaluation runs in constant stack. -/
def scanContains (needle : List Char) : List Char → Bool
  | [] => needle.isEmpty
  | c :: t => needle.isPrefixOf (c :: t) || scanContains needle t

/-- The string `needle` occurs as a contiguous substring of `hay`. -/
def strContains (hay needle : String) : Prop := needle.data <:+: hay.data

theorem scanContains_iff (n h : List Char) : scanContains n h = true ↔ n <:+: h := by
  induction h with
  | nil => simp [scanContains, List.isEmpty_iff, List.infix_nil]
  | cons c t ih =>
    simp [scanContains, Bool.or_eq_true, ih, List.infix_cons_iff,
      List.isPrefixOf_iff_prefix]

instance (hay needle : String) : Decidable (strContains hay needle) :=
  decidable_of_iff _ (scanContains_iff needle.data hay.data)

/-- Number of (possibly overlapping) occurrences of `needle` in `hay`, by a
constant-stack scan. -/
def countOccur (needle : List Char) : List Char → Nat → Nat
  | [], acc => acc
  | c :: t, acc => countOccur needle t (acc + (if needle.isPrefixOf (c :: t) then 1 else 0))

/-- Occurrence count of a needle string in a hay string. -/
def occurrences (hay needle : String) : Nat := countOccur needle.data hay.data 0

theorem strData_append (s t : String) : (s ++ t).data = s.data ++ t.data := by
  cases s; cases t; rfl

theorem strContains_refl (s : String) : strContains s s :=
  ⟨[], [], by simp⟩

theorem strContains_appL {s n : String} (t : String) (h : strContains s n) :
    strContains (t ++ s) n := by
  obtain ⟨u, v, huv⟩ := h
  exact ⟨t.data ++ u, v, by rw [strData_append, List.append_assoc, List.append_assoc,
    ← List.append_assoc u, huv]⟩

theorem strContains_appR {s n : String} (t : String) (h : strContains s n) :
    strContains (s ++ t) n := by
  obtain ⟨u, v, huv⟩ := h
  exact ⟨u, v ++ t.data, by rw [strData_append, ← huv]; simp [List.append_assoc]⟩

theorem strContains_trans {a b c : String} (h1 : strContains a b)
    (h2 : strContains b c) : strContains a c :=
  List.IsInfix.trans h2 h1

/-- Containment at the head of a right-associated concatenation. -/
theorem strContains_here (s t : String) : strContains (s ++ t) s :=
  strContains_appR t (strContains_refl s)

/-- Containment somewhere in the tail of a right-associated concatenation. -/
theorem strContains_there {t n : String} (s : String) (h : strContains t n) :
    strContains (s ++ t) n :=
  strContains_appL s h

/-- A member of a newline-joined list of rendered lines occurs in the join. -/
theorem strContains_joinNL {g : String → String} {l : List String} {f : String}
    (hf : f ∈ l) : strContains (joinNL (l.map g)) (g f) := by
  induction l with
  | nil => cases hf
  | cons x xs ih =>
    rcases List.mem_cons.mp hf with rfl | hf
    · cases xs with
      | nil => exact strContains_refl (g f)
      | cons y ys => exact strContains_appR _ (strContains_appR _ (strContains_refl (g f)))
    · cases xs with
      | nil => cases hf
      | cons y ys => exact strContains_there _ (ih hf)

end UnifiApis



namespace UnifiApis

/-- The string `p` is a prefix of the string `s`. -/
def strPrefix (p s : String) : Prop := p.data <+: s.data

instance (p s : String) : Decidable (strPrefix p s) := by
  unfold strPrefix; infer_instance

theorem strPrefix_append (p t : String) : strPrefix p (p ++ t) := by
  unfold strPrefix; rw [strData_append]; exact List.prefix_append p.data t.data

theorem strPrefix_extend {p q : String} (t : String) (h : strPrefix p q) :
    strPrefix p (q ++ t) := by
  obtain ⟨w, hw⟩ := h
  exact ⟨w ++ t.data, by rw [strData_append, ← hw, List.append_assoc]⟩

/-- Containment of a needle that starts at the head of the haystack and whose
last part is a prefix of the remainder. -/
theorem strContains_run2p {q : String} (p1 n2 : String) (h : strPrefix n2 q) :
    strContains (p1 ++ q) (p1 ++ n2) := by
  obtain ⟨w, hw⟩ := h
  exact ⟨[], w, by simp only [strData_append, List.append_nil, List.nil_append,
    List.append_assoc, hw]⟩

/-- Same as `strContains_run2p` with the needle spanning two leading pieces. -/
theorem strContains_run3p {q : String} (p1 p2 n3 : String) (h : strPrefix n3 q) :
    strContains (p1 ++ (p2 ++ q)) (p1 ++ (p2 ++ n3)) := by
  obtain ⟨w, hw⟩ := h
  exact ⟨[], w, by simp only [strData_append, List.append_nil, List.nil_append,
    List.append_assoc, hw]⟩

/-- Same as `strContains_run2p` with the needle spanning three leading pieces. -/
theorem strContains_run4p {q : String} (p1 p2 p3 n4 : String) (h : strPrefix n4 q) :
    strContains (p1 ++ (p2 ++ (p3 ++ q))) (p1 ++ (p2 ++ (p3 ++ n4))) := by
  obtain ⟨w, hw⟩ := h
  exact ⟨[], w, by simp only [strData_append, List.append_nil, List.nil_append,
    List.append_assoc, hw]⟩

/-- Containment inside the leading piece of a concatenation. -/
theorem strContains_at {piece n : String} (rest : String) (h : strContains piece n) :
    strContains (piece ++ rest) n :=
  strContains_appR rest h

end UnifiApis


namespace UnifiApis

/-- A successful discovery returns a list sorted descending by parsed version. -/
theorem get_spec_files_ok_sorted {names files : List String}
    (h : BuildDocs.get_spec_files (some names) = Except.ok files) :
    List.Sorted specGE files := by
  simp only [BuildDocs.get_spec_files] at h
  split at h
  · cases h
  · injection h with h
    subst h
    exact List.sorted_insertionSort specGE (globJson names)

/-- A successful discovery returns a permutation of the globbed entries. -/
theorem get_spec_files_ok_perm {names files : List String}
    (h : BuildDocs.get_spec_files (some names) = Except.ok files) :
    files.Perm (globJson names) := by
  simp only [BuildDocs.get_spec_files] at h
  split at h
  · cases h
  · injection h with h
    subst h
    exact List.perm_insertionSort specGE (globJson names)

/-- Every file a successful discovery returns has a parsable version stem. -/
theorem get_spec_files_ok_parses {dir : Option (List String)} {files : List String}
    (h : BuildDocs.get_spec_files dir = Except.ok files) :
    ∀ f ∈ files, (parseVersion (stem f)).isSome := by
  match dir with
  | none =>
    injection h with h
    subst h
    intro f hf
    cases hf
  | some names =>
    simp only [BuildDocs.get_spec_files] at h
    split at h
    · cases h
    · next hfind =>
      injection h with h
      subst h
      intro f hf
      have hf2 : f ∈ globJson names := (List.mem_insertionSort specGE).mp hf
      have := List.find?_eq_none.mp hfind f hf2
      simp only [Bool.not_eq_true, Option.isNone_iff_eq_none] at this
      simp [Option.isSome_iff_exists, Option.ne_none_iff_exists'.mp this]

end UnifiApis

/-- The two textual copies of `get_spec_files` are definitionally equal. -/
theorem UnifiApis.get_spec_files_copies_eq :
    ∀ dir : Option (List String),
      BuildDocs.get_spec_files dir = UpdateReadme.get_spec_files dir :=
  fun _ => rfl

/-- C10: the copy of `get_spec_files` in `build_docs.py` and the copy in
`update_readme.py` compute the same function: on every modelled directory they
return the same result, so the documentation build and the README regeneration
always agree on the set and ordering of versions per family. -/
theorem C10_get_spec_files_copies_agree :
    ∀ dir : Option (List String),
      BuildDocs.get_spec_files dir = UpdateReadme.get_spec_files dir :=
  fun _ => rfl

/-- C3: discovery on a missing directory succeeds with the empty collection,
and likewise on an existing empty directory, for both script copies. -/
theorem C3_missing_or_empty_dir_ok :
    BuildDocs.get_spec_files none = Except.ok [] ∧
    BuildDocs.get_spec_files (some []) = Except.ok [] ∧
    UpdateReadme.get_spec_files none = Except.ok [] ∧
    UpdateReadme.get_spec_files (some []) = Except.ok [] :=
  ⟨rfl, rfl, rfl, rfl⟩

/-- C1: whenever discovery succeeds the returned files are sorted by
descending component-wise numeric version order (and are exactly the globbed
files); in particular any directory enumeration of the set
1.0.0.json, 2.0.0.json, 10.0.0.json is returned as 10.0.0, 2.0.0, 1.0.0,
not in lexicographic string order. -/
theorem C1_discovery_sorted_descending :
    (∀ names files : List String,
      BuildDocs.get_spec_files (some names) = Except.ok files →
        List.Sorted UnifiApis.specGE files ∧ files.Perm (UnifiApis.globJson names)) ∧
    (∀ l : List String,
      l.Perm ["1.0.0.json", "2.0.0.json", "10.0.0.json"] →
        BuildDocs.get_spec_files (some l) =
          Except.ok ["10.0.0.json", "2.0.0.json", "1.0.0.json"]) := by
  constructor
  · intro names files h
    exact ⟨UnifiApis.get_spec_files_ok_sorted h, UnifiApis.get_spec_files_ok_perm h⟩
  · intro l hl
    have h3 : l.length = 3 := by simpa using hl.length_eq
    rcases l with _ | ⟨x, _ | ⟨y, _ | ⟨z, _ | ⟨w, t⟩⟩⟩⟩ <;> simp at h3
    have hx : x ∈ ["1.0.0.json", "2.0.0.json", "10.0.0.json"] := hl.subset (by simp)
    have hy : y ∈ ["1.0.0.json", "2.0.0.json", "10.0.0.json"] := hl.subset (by simp)
    have hz : z ∈ ["1.0.0.json", "2.0.0.json", "10.0.0.json"] := hl.subset (by simp)
    fin_cases hx <;> fin_cases hy <;> fin_cases hz <;>
      first
        | rfl
        | exact absurd hl (by decide)

/-- Witness for C1 at a concrete enumeration order. -/
theorem C1_witness :
    List.Sorted UnifiApis.specGE ["10.0.0.json", "2.0.0.json", "1.0.0.json"] ∧
    BuildDocs.get_spec_files (some ["1.0.0.json", "10.0.0.json", "2.0.0.json"]) =
      Except.ok ["10.0.0.json", "2.0.0.json", "1.0.0.json"] :=
  ⟨(C1_discovery_sorted_descending.1 ["1.0.0.json", "10.0.0.json", "2.0.0.json"]
      ["10.0.0.json", "2.0.0.json", "1.0.0.json"] (by rfl)).1,
    C1_discovery_sorted_descending.2 ["1.0.0.json", "10.0.0.json", "2.0.0.json"] (by decide)⟩

/-- C2: a directory holding a spec file whose stem does not parse as a
semantic version makes discovery fail with an error naming the offending
stem, and aborts both the documentation build and the README regeneration
before they produce any output, whichever family directory holds the file. -/
theorem C2_unparsable_version_fails_run :
    ∀ names : List String,
      (∃ f ∈ UnifiApis.globJson names, UnifiApis.parseVersion (UnifiApis.stem f) = none) →
      (∃ f, f ∈ UnifiApis.globJson names ∧
          UnifiApis.parseVersion (UnifiApis.stem f) = none ∧
          BuildDocs.get_spec_files (some names) =
            Except.error ("Invalid version: " ++ UnifiApis.stem f)) ∧
      (∀ net prot : Option (List (String × String)),
          BuildDocs.dirNames net = some names →
          ∃ e, BuildDocs.mainOutputs net prot = Except.error e) ∧
      (∀ net prot : Option (List (String × String)),
          BuildDocs.dirNames prot = some names →
          ∃ e, BuildDocs.mainOutputs net prot = Except.error e) ∧
      (∀ prot : Option (List String),
          ∃ e, UpdateReadme.update_readme (some names) prot = Except.error e) ∧
      (∀ net : Option (List String),
          ∃ e, UpdateReadme.update_readme net (some names) = Except.error e) := by
  intro names hbad
  obtain ⟨f, hf, hfbad⟩ := hbad
  have hsome : ((UnifiApis.globJson names).find?
      (fun f => (UnifiApis.parseVersion (UnifiApis.stem f)).isNone)).isSome :=
    List.find?_isSome.mpr ⟨f, hf, by simp [hfbad]⟩
  obtain ⟨g, hg⟩ := Option.isSome_iff_exists.mp hsome
  have hgbad : UnifiApis.parseVersion (UnifiApis.stem g) = none := by
    simpa using List.find?_some hg
  have hgmem : g ∈ UnifiApis.globJson names := List.mem_of_find?_eq_some hg
  have herr : BuildDocs.get_spec_files (some names) =
      Except.error ("Invalid version: " ++ UnifiApis.stem g) := by
    simp [BuildDocs.get_spec_files, hg]
  refine ⟨⟨g, hgmem, hgbad, herr⟩, ?_, ?_, ?_, ?_⟩
  · intro net prot hnet
    exact ⟨"Invalid version: " ++ UnifiApis.stem g,
      by simp [BuildDocs.mainOutputs, hnet, herr]⟩
  · intro net prot hprot
    cases hn : BuildDocs.get_spec_files (BuildDocs.dirNames net) with
    | error e => exact ⟨e, by simp [BuildDocs.mainOutputs, hn]⟩
    | ok l =>
      exact ⟨"Invalid version: " ++ UnifiApis.stem g,
        by simp [BuildDocs.mainOutputs, hn, hprot, herr]⟩
  · intro prot
    exact ⟨"Invalid version: " ++ UnifiApis.stem g,
      by simp [UpdateReadme.update_readme, ← UnifiApis.get_spec_files_copies_eq, herr]⟩
  · intro net
    cases hn : UpdateReadme.get_spec_files net with
    | error e => exact ⟨e, by simp [UpdateReadme.update_readme, hn]⟩
    | ok l =>
      exact ⟨"Invalid version: " ++ UnifiApis.stem g,
        by simp [UpdateReadme.update_readme, hn, ← UnifiApis.get_spec_files_copies_eq, herr]⟩

/-- Witness for C2 on the directory holding the single file abc.json. -/
theorem C2_witness :
    ∃ e, BuildDocs.mainOutputs (some [("abc.json", "spec-bytes")]) none =
      Except.error e :=
  (C2_unparsable_version_fails_run ["abc.json"] (by decide)).2.1
    (some [("abc.json", "spec-bytes")]) none rfl

namespace UnifiApis

/-- Same as `strContains_run2p` with the needle spanning four leading pieces. -/
theorem strContains_run5p {q : String} (p1 p2 p3 p4 n5 : String) (h : strPrefix n5 q) :
    strContains (p1 ++ (p2 ++ (p3 ++ (p4 ++ q)))) (p1 ++ (p2 ++ (p3 ++ (p4 ++ n5)))) := by
  obtain ⟨w, hw⟩ := h
  exact ⟨[], w, by simp only [strData_append, List.append_nil, List.nil_append,
    List.append_assoc, hw]⟩

end UnifiApis

set_option maxRecDepth 80000 in
/-- C4: with zero discovered versions in a family the README renders the
literal placeholder `No versions available yet` and the count `0` in both
family sections, and the index page still renders both family cards, with the
`N/A` placeholder in the latest-version slot and a zero version count, rather
than omitting the section. -/
theorem C4_zero_versions_placeholders :
    UnifiApis.occurrences (UpdateReadme.readme_content [] [])
      ("No versions available yet") = 2 ∧
    UnifiApis.occurrences (UpdateReadme.readme_content [] [])
      ("0 version(s) available:") = 2 ∧
    UnifiApis.strContains (BuildDocs.generate_index_html [] []) ("Network API") ∧
    UnifiApis.strContains (BuildDocs.generate_index_html [] []) ("Protect API") ∧
    UnifiApis.strContains (BuildDocs.generate_index_html [] [])
      ("<span class=\"latest-version\">" ++ ("N/A" ++ "</span>")) ∧
    UnifiApis.strContains (BuildDocs.generate_index_html [] [])
      ("<span class=\"version-count\">" ++ ("0" ++ (" version" ++ ("s" ++ " available")))) := by
  refine ⟨?_, ?_, ?_, ?_, ?_, ?_⟩
  · decide
  · decide
  · simp only [BuildDocs.generate_index_html]
    repeat first
      | exact UnifiApis.strContains_here _ _
      | apply UnifiApis.strContains_there _
  · simp only [BuildDocs.generate_index_html]
    repeat first
      | exact UnifiApis.strContains_here _ _
      | apply UnifiApis.strContains_there _
  · simp only [BuildDocs.generate_index_html]
    repeat first
      | exact UnifiApis.strContains_run3p _ _ _ (UnifiApis.strPrefix_append _ _)
      | apply UnifiApis.strContains_there _
  · simp only [BuildDocs.generate_index_html]
    repeat first
      | exact UnifiApis.strContains_run5p _ _ _ _ _ (UnifiApis.strPrefix_append _ _)
      | apply UnifiApis.strContains_there _

/-- C7: a family with exactly one discovered spec file renders no older
versions at all (the rows and the toggle block are both empty), and with the
single file 3.1.0.json the index page shows 3.1.0 in that family's
latest-version slot, whichever family it is. -/
theorem C7_single_version_latest_no_older :
    (∀ (specs : List String) (api_type : String), specs.length = 1 →
        BuildDocs.generate_version_rows specs api_type = "" ∧
        (if 1 < specs.length then
            BuildDocs.versionsToggle (BuildDocs.generate_version_rows specs api_type)
          else "") = "") ∧
    UnifiApis.strContains (BuildDocs.generate_index_html ["3.1.0.json"] [])
      ("<span class=\"latest-version\">" ++ ("3.1.0" ++ "</span>")) ∧
    UnifiApis.strContains (BuildDocs.generate_index_html [] ["3.1.0.json"])
      ("<span class=\"latest-version\">" ++ ("3.1.0" ++ "</span>")) := by
  refine ⟨?_, ?_, ?_⟩
  · intro specs api_type h
    rcases specs with _ | ⟨x, t⟩
    · simp at h
    · rcases t with _ | ⟨y, t2⟩
      · exact ⟨rfl, rfl⟩
      · simp at h
  · simp only [BuildDocs.generate_index_html]
    repeat first
      | exact UnifiApis.strContains_run3p _ _ _ (UnifiApis.strPrefix_append _ _)
      | apply UnifiApis.strContains_there _
  · simp only [BuildDocs.generate_index_html]
    repeat first
      | exact UnifiApis.strContains_run3p _ _ _ (UnifiApis.strPrefix_append _ _)
      | apply UnifiApis.strContains_there _

/-- Witness for C7 on the single network spec 3.1.0.json. -/
theorem C7_witness :
    BuildDocs.generate_version_rows ["3.1.0.json"] ("network") = "" ∧
    (if 1 < (["3.1.0.json"] : List String).length then
        BuildDocs.versionsToggle
          (BuildDocs.generate_version_rows ["3.1.0.json"] ("network"))
      else "") = "" :=
  C7_single_version_latest_no_older.1 ["3.1.0.json"] ("network") (by decide)

set_option maxRecDepth 80000 in
/-- C8: with exactly the two files 1.0.0.json and 1.1.0.json discovery puts
1.1.0 first, the older-versions rows for the family hold exactly one
version-row entry, namely 1.0.0 with both its documentation link and its raw
spec link, the latest 1.1.0 nowhere among them, and that entry is rendered
into the index page inside the family's toggle block. -/
theorem C8_two_versions_single_older_entry :
    BuildDocs.get_spec_files (some ["1.0.0.json", "1.1.0.json"]) =
      Except.ok ["1.1.0.json", "1.0.0.json"] ∧
    UnifiApis.occurrences
      (BuildDocs.generate_version_rows ["1.1.0.json", "1.0.0.json"] ("network"))
      ("class=\"version-row\"") = 1 ∧
    UnifiApis.strContains
      (BuildDocs.generate_version_rows ["1.1.0.json", "1.0.0.json"] ("network"))
      ("<span class=\"version-num\">1.0.0</span>") ∧
    UnifiApis.strContains
      (BuildDocs.generate_version_rows ["1.1.0.json", "1.0.0.json"] ("network"))
      ("href=\"network-1.0.0.html\"") ∧
    UnifiApis.strContains
      (BuildDocs.generate_version_rows ["1.1.0.json", "1.0.0.json"] ("network"))
      ("href=\"network-1.0.0.json\"") ∧
    ¬ UnifiApis.strContains
      (BuildDocs.generate_version_rows ["1.1.0.json", "1.0.0.json"] ("network"))
      ("1.1.0") ∧
    UnifiApis.occurrences
      (BuildDocs.generate_version_rows ["1.1.0.json", "1.0.0.json"] ("protect"))
      ("class=\"version-row\"") = 1 ∧
    UnifiApis.strContains
      (BuildDocs.generate_version_rows ["1.1.0.json", "1.0.0.json"] ("protect"))
      ("href=\"protect-1.0.0.html\"") ∧
    UnifiApis.strContains
      (BuildDocs.generate_version_rows ["1.1.0.json", "1.0.0.json"] ("protect"))
      ("href=\"protect-1.0.0.json\"") ∧
    UnifiApis.strContains
      (BuildDocs.generate_index_html ["1.1.0.json", "1.0.0.json"] [])
      ("href=\"network-1.0.0.html\"") := by
  refine ⟨rfl, by decide, by decide, by decide, by decide, by decide, by decide,
    by decide, by decide, ?_⟩
  have h2 : UnifiApis.strContains
      (if 1 < (["1.1.0.json", "1.0.0.json"] : List String).length then
          BuildDocs.versionsToggle
            (BuildDocs.generate_version_rows ["1.1.0.json", "1.0.0.json"] ("network"))
        else "")
      ("href=\"network-1.0.0.html\"") := by
    show UnifiApis.strContains
      (BuildDocs.versionsToggle
        (BuildDocs.generate_version_rows ["1.1.0.json", "1.0.0.json"] ("network"))) _
    simp only [BuildDocs.versionsToggle]
    apply UnifiApis.strContains_there _
    exact UnifiApis.strContains_at _ (by decide)
  have h1 : UnifiApis.strContains
      (BuildDocs.generate_index_html ["1.1.0.json", "1.0.0.json"] [])
      (if 1 < (["1.1.0.json", "1.0.0.json"] : List String).length then
          BuildDocs.versionsToggle
            (BuildDocs.generate_version_rows ["1.1.0.json", "1.0.0.json"] ("network"))
        else "") := by
    simp only [BuildDocs.generate_index_html]
    repeat first
      | exact UnifiApis.strContains_here _ _
      | apply UnifiApis.strContains_there _
  exact UnifiApis.strContains_trans h1 h2

namespace UnifiApis

/-- Equal middles of equal three-part concatenations sharing prefix and suffix. -/
theorem append_mid_eq {pre s t suf : String}
    (h : pre ++ s ++ suf = pre ++ t ++ suf) : s.data = t.data := by
  have hd := congrArg String.data h
  rw [strData_append, strData_append, strData_append, strData_append] at hd
  rw [List.append_assoc, List.append_assoc] at hd
  have h1 := (List.append_inj hd rfl).2
  exact (List.append_inj' h1 rfl).1

/-- Equal-length prefixes of equal three-part concatenations are equal. -/
theorem append_pre_eq {pre s suf pre2 t suf2 : String}
    (h : pre ++ s ++ suf = pre2 ++ t ++ suf2)
    (hl : pre.data.length = pre2.data.length) : pre.data = pre2.data := by
  have hd := congrArg String.data h
  rw [strData_append, strData_append, strData_append, strData_append] at hd
  rw [List.append_assoc, List.append_assoc] at hd
  exact (List.append_inj hd hl).1

/-- Equal-length suffixes of equal three-part concatenations are equal. -/
theorem append_suf_eq {pre s suf pre2 t suf2 : String}
    (h : pre ++ s ++ suf = pre2 ++ t ++ suf2)
    (hl : suf.data.length = suf2.data.length) : suf.data = suf2.data := by
  have hd := congrArg String.data h
  rw [strData_append, strData_append, strData_append, strData_append] at hd
  exact (List.append_inj' hd hl).2

/-- Version parsing only depends on the character data of the string. -/
theorem parseVersion_congr {s t : String} (h : s.data = t.data) :
    parseVersion s = parseVersion t := by
  unfold parseVersion; rw [h]

end UnifiApis

/-- C9: with zero discovered versions in a family the index page shows N/A in
the latest-version slot yet still emits that family's Docs and JSON buttons
with hrefs embedding the text None (network-None.html, network-None.json, and
likewise for protect), and no successful run ever writes a file at
docs/network-None.html or docs/network-None.json, because every written spec
path embeds a stem that parses as a version while None does not parse. -/
theorem C9_empty_family_none_links :
    UnifiApis.strContains (BuildDocs.generate_index_html [] [])
      ("<span class=\"latest-version\">" ++ ("N/A" ++ "</span>")) ∧
    UnifiApis.strContains (BuildDocs.generate_index_html [] [])
      ("href=\"network-" ++ ("None" ++ ".html\"")) ∧
    UnifiApis.strContains (BuildDocs.generate_index_html [] [])
      ("href=\"network-" ++ ("None" ++ ".json\"")) ∧
    UnifiApis.strContains (BuildDocs.generate_index_html [] [])
      ("href=\"protect-" ++ ("None" ++ ".html\"")) ∧
    UnifiApis.strContains (BuildDocs.generate_index_html [] [])
      ("href=\"protect-" ++ ("None" ++ ".json\"")) ∧
    UnifiApis.parseVersion ("None") = none ∧
    (∀ (net prot : Option (List (String × String)))
        (outs : List (String × String)) (pc : String × String),
        BuildDocs.mainOutputs net prot = Except.ok outs → pc ∈ outs →
        pc.1 ≠ "docs/network-None.html" ∧ pc.1 ≠ "docs/network-None.json") := by
  refine ⟨?_, ?_, ?_, ?_, ?_, by decide, ?_⟩
  pick_goal 6
  · intro net prot outs pc hmain hmem
    simp only [BuildDocs.mainOutputs] at hmain
    split at hmain
    · exact absurd hmain (by simp)
    rename_i ns hn
    split at hmain
    · exact absurd hmain (by simp)
    rename_i ps hp
    injection hmain with hout
    subst hout
    rcases List.mem_append.mp hmem with hm | hidx
    · rcases List.mem_append.mp hm with hmn | hmp
      · obtain ⟨sub, hsub, hpc⟩ := List.mem_flatten.mp hmn
        obtain ⟨spec, hspec, rfl⟩ := List.mem_map.mp hsub
        have hps := UnifiApis.get_spec_files_ok_parses hn spec hspec
        simp only [BuildDocs.networkOutputs, List.mem_cons,
          List.not_mem_nil, or_false] at hpc
        rcases hpc with rfl | rfl
        · refine ⟨fun h => ?_, fun h => ?_⟩
          · rw [show ("docs/network-None.html" : String) =
                "docs/network-" ++ "None" ++ ".html" from by decide] at h
            exact absurd (UnifiApis.append_suf_eq h (by decide)) (by decide)
          · rw [show ("docs/network-None.json" : String) =
                "docs/network-" ++ "None" ++ ".json" from by decide] at h
            have hnone : UnifiApis.parseVersion (UnifiApis.stem spec) = none := by
              rw [UnifiApis.parseVersion_congr (UnifiApis.append_mid_eq h)]; decide
            rw [hnone] at hps
            cases hps
        · refine ⟨fun h => ?_, fun h => ?_⟩
          · rw [show ("docs/network-None.html" : String) =
                "docs/network-" ++ "None" ++ ".html" from by decide] at h
            have hnone : UnifiApis.parseVersion (UnifiApis.stem spec) = none := by
              rw [UnifiApis.parseVersion_congr (UnifiApis.append_mid_eq h)]; decide
            rw [hnone] at hps
            cases hps
          · rw [show ("docs/network-None.json" : String) =
                "docs/network-" ++ "None" ++ ".json" from by decide] at h
            exact absurd (UnifiApis.append_suf_eq h (by decide)) (by decide)
      · obtain ⟨sub, hsub, hpc⟩ := List.mem_flatten.mp hmp
        obtain ⟨spec, hspec, rfl⟩ := List.mem_map.mp hsub
        simp only [BuildDocs.protectOutputs, List.mem_cons,
          List.not_mem_nil, or_false] at hpc
        rcases hpc with rfl | rfl <;>
          refine ⟨fun h => ?_, fun h => ?_⟩ <;>
          · first
              | rw [show ("docs/network-None.html" : String) =
                    "docs/network-" ++ "None" ++ ".html" from by decide] at h
              | rw [show ("docs/network-None.json" : String) =
                    "docs/network-" ++ "None" ++ ".json" from by decide] at h
            exact absurd (UnifiApis.append_pre_eq h (by decide)) (by decide)
    · simp only [List.mem_singleton] at hidx
      subst hidx
      refine ⟨fun h => ?_, fun h => ?_⟩ <;>
        · dsimp only at h
          exact absurd h (by decide)
  all_goals
    simp only [BuildDocs.generate_index_html]
    repeat first
      | exact UnifiApis.strContains_run3p _ _ _ (UnifiApis.strPrefix_append _ _)
      | apply UnifiApis.strContains_there _

/-- Witness for C9: a run over a directory holding 1.0.0.json writes its spec
copy at a path distinct from the dangling None links. -/
theorem C9_witness :
    (("docs/network-" ++ UnifiApis.stem ("1.0.0.json") ++ ".json",
        BuildDocs.contentOf (some [("1.0.0.json", "s")]) ("1.0.0.json")) :
      String × String).1 ≠ "docs/network-None.html" ∧
    (("docs/network-" ++ UnifiApis.stem ("1.0.0.json") ++ ".json",
        BuildDocs.contentOf (some [("1.0.0.json", "s")]) ("1.0.0.json")) :
      String × String).1 ≠ "docs/network-None.json" :=
  C9_empty_family_none_links.2.2.2.2.2.2
    (some [("1.0.0.json", "s")]) none
    (((["1.0.0.json"].map (BuildDocs.networkOutputs (some [("1.0.0.json", "s")]))).flatten) ++
      ((([] : List String).map (BuildDocs.protectOutputs none)).flatten) ++
      [("docs/index.html", BuildDocs.generate_index_html ["1.0.0.json"] [])])
    ("docs/network-" ++ UnifiApis.stem ("1.0.0.json") ++ ".json",
      BuildDocs.contentOf (some [("1.0.0.json", "s")]) ("1.0.0.json"))
    rfl
    (by simp [BuildDocs.networkOutputs])

namespace UnifiApis

/-- The filesystem state a run touches: the two input spec directories (with
contents), the docs output directory, and the README file. -/
structure World where
  network : Option (List (String × String))
  protect : Option (List (String × String))
  docs : List (String × String)
  readme : String

/-- Overwrite-or-create semantics of writing one file into a directory store. -/
def writeFile (store : List (String × String)) (p c : String) :
    List (String × String) :=
  if store.any (fun q => q.1 == p)
  then store.map (fun q => if q.1 == p then (p, c) else q)
  else store ++ [(p, c)]

/-- Writing a list of files in order. -/
def writeAll (store : List (String × String)) (outs : List (String × String)) :
    List (String × String) :=
  outs.foldl (fun st pc => writeFile st pc.1 pc.2) store

/-- The files one generation pass writes, as read off the input directories:
the documentation build outputs followed by the regenerated README. -/
def runOutputs (net prot : Option (List (String × String))) :
    Except String (List (String × String) × String) :=
  match BuildDocs.mainOutputs net prot with
  | Except.error e => Except.error e
  | Except.ok douts =>
    match UpdateReadme.update_readme (BuildDocs.dirNames net) (BuildDocs.dirNames prot) with
    | Except.error e => Except.error e
    | Except.ok rd => Except.ok (douts, rd)

/-- One full generation pass (`build_docs.main` then `update_readme`): writes
the docs outputs into the docs store and overwrites the README, returning the
post-run world together with every (path, content) pair written. The input
directories are only read. -/
def fullRun (w : World) : Except String (World × List (String × String)) :=
  match runOutputs w.network w.protect with
  | Except.error e => Except.error e
  | Except.ok (douts, rd) =>
    Except.ok ({ w with docs := writeAll w.docs douts, readme := rd },
      douts ++ [("README.md", rd)])

end UnifiApis

/-- C6: rerunning the generation pass on the world a successful run produced
writes exactly the same files with byte-identical contents (nothing in the
outputs depends on a date or on anything but the unchanged input directories,
so not even a date-stamp exception is needed). -/
theorem C6_rerun_identical_outputs :
    ∀ (w w1 : UnifiApis.World) (outs : List (String × String)),
      UnifiApis.fullRun w = Except.ok (w1, outs) →
      ∃ w2, UnifiApis.fullRun w1 = Except.ok (w2, outs) := by
  intro w w1 outs h
  unfold UnifiApis.fullRun at h ⊢
  cases hro : UnifiApis.runOutputs w.network w.protect with
  | error e => rw [hro] at h; cases h
  | ok pr =>
    rcases pr with ⟨douts, rd⟩
    rw [hro] at h
    injection h with h
    injection h with h1 h2
    subst h1
    subst h2
    have hro2 : UnifiApis.runOutputs
        ({ w with docs := UnifiApis.writeAll w.docs douts, readme := rd } :
          UnifiApis.World).network
        ({ w with docs := UnifiApis.writeAll w.docs douts, readme := rd } :
          UnifiApis.World).protect = Except.ok (douts, rd) := hro
    rw [hro2]
    exact ⟨_, rfl⟩

/-- Witness for C6 on a world holding one network spec. -/
theorem C6_witness :
    ∃ w2, UnifiApis.fullRun
      ({ network := some [("1.0.0.json", "s")], protect := none,
         docs := UnifiApis.writeAll []
           (((["1.0.0.json"].map
                (BuildDocs.networkOutputs (some [("1.0.0.json", "s")]))).flatten) ++
             ((([] : List String).map (BuildDocs.protectOutputs none)).flatten) ++
             [("docs/index.html", BuildDocs.generate_index_html ["1.0.0.json"] [])]),
         readme := UpdateReadme.readme_content ["1.0.0.json"] [] } : UnifiApis.World) =
      Except.ok (w2,
        (((["1.0.0.json"].map
             (BuildDocs.networkOutputs (some [("1.0.0.json", "s")]))).flatten) ++
          ((([] : List String).map (BuildDocs.protectOutputs none)).flatten) ++
          [("docs/index.html", BuildDocs.generate_index_html ["1.0.0.json"] [])]) ++
        [("README.md", UpdateReadme.readme_content ["1.0.0.json"] [])]) :=
  C6_rerun_identical_outputs
    ({ network := some [("1.0.0.json", "s")], protect := none, docs := [], readme := "" })
    _ _ rfl

namespace UnifiApis

/-- A rendered README network link line is never the empty string. -/
theorem networkLink_ne_empty (s : String) : UpdateReadme.networkLink s ≠ "" := by
  intro h
  have hd := congrArg String.data h
  rw [UpdateReadme.networkLink, strData_append] at hd
  rcases List.append_eq_nil.mp hd with ⟨h1, h2⟩
  exact absurd h2 (by decide)

/-- A rendered README protect link line is never the empty string. -/
theorem protectLink_ne_empty (s : String) : UpdateReadme.protectLink s ≠ "" := by
  intro h
  have hd := congrArg String.data h
  rw [UpdateReadme.protectLink, strData_append] at hd
  rcases List.append_eq_nil.mp hd with ⟨h1, h2⟩
  exact absurd h2 (by decide)

/-- A newline-join of rendered lines is nonempty once some member renders a
nonempty line. -/
theorem joinNL_map_ne_empty {g : String → String} {l : List String} {f : String}
    (hf : f ∈ l) (hg : ∀ s, g s ≠ "") : joinNL (l.map g) ≠ "" := by
  cases l with
  | nil => cases hf
  | cons x xs =>
    cases xs with
    | nil => simpa [joinNL] using hg x
    | cons y ys =>
      intro h
      have hd := congrArg String.data h
      rw [show joinNL ((x :: y :: ys).map g) =
          g x ++ "\n" ++ joinNL ((y :: ys).map g) from rfl, strData_append] at hd
      rcases List.append_eq_nil.mp hd with ⟨h1, h2⟩
      rw [strData_append] at h1
      rcases List.append_eq_nil.mp h1 with ⟨h3, h4⟩
      exact hg x (String.ext h3)

end UnifiApis

/-- C5 (amended: the generated README carries no date stamp, see the
counterexample): for every pair of successfully discovered version lists the
README lists, per family, every discovered version as a link to its raw spec
file in that family's directory, in the discovered newest-first order (the
whole ordered block is embedded and the lists are sorted descending), states
each family's total version count, and shows the newest file name in the
directory-structure sample. -/
theorem C5_readme_lists_versions :
    ∀ netNames protNames ns ps : List String,
      UpdateReadme.get_spec_files (some netNames) = Except.ok ns →
      UpdateReadme.get_spec_files (some protNames) = Except.ok ps →
      List.Sorted UnifiApis.specGE ns ∧
      List.Sorted UnifiApis.specGE ps ∧
      UnifiApis.strContains (UpdateReadme.readme_content ns ps)
        (toString ns.length ++ (" version(s) available:")) ∧
      UnifiApis.strContains (UpdateReadme.readme_content ns ps)
        (toString ps.length ++ (" version(s) available:")) ∧
      (∀ f ∈ ns, UnifiApis.strContains (UpdateReadme.readme_content ns ps)
        (UpdateReadme.networkLink f)) ∧
      (∀ f ∈ ps, UnifiApis.strContains (UpdateReadme.readme_content ns ps)
        (UpdateReadme.protectLink f)) ∧
      UnifiApis.strContains (UpdateReadme.readme_content ns ps)
        (UnifiApis.joinNL (ns.map UpdateReadme.networkLink)) ∧
      UnifiApis.strContains (UpdateReadme.readme_content ns ps)
        (UnifiApis.joinNL (ps.map UpdateReadme.protectLink)) ∧
      (∀ f fs, ns = f :: fs →
        UnifiApis.strContains (UpdateReadme.readme_content ns ps)
          ("unifi-network/\n  ├── " ++ (f ++ "\n"))) ∧
      (∀ f fs, ps = f :: fs →
        UnifiApis.strContains (UpdateReadme.readme_content ns ps)
          ("unifi-protect/\n  ├── " ++ (f ++ "\n"))) := by
  intro netNames protNames ns ps hn hp
  rw [← UnifiApis.get_spec_files_copies_eq] at hn hp
  refine ⟨UnifiApis.get_spec_files_ok_sorted hn, UnifiApis.get_spec_files_ok_sorted hp,
    ?_, ?_, ?_, ?_, ?_, ?_, ?_, ?_⟩
  · simp only [UpdateReadme.readme_content]
    repeat first
      | exact UnifiApis.strContains_run2p _ _ (UnifiApis.strPrefix_append _ _)
      | apply UnifiApis.strContains_there _
  · simp only [UpdateReadme.readme_content]
    apply UnifiApis.strContains_there _
    apply UnifiApis.strContains_there _
    apply UnifiApis.strContains_there _
    apply UnifiApis.strContains_there _
    apply UnifiApis.strContains_there _
    repeat first
      | exact UnifiApis.strContains_run2p _ _ (UnifiApis.strPrefix_append _ _)
      | apply UnifiApis.strContains_there _
  · intro f hf
    have hj : UnifiApis.strContains
        (UnifiApis.joinNL (ns.map UpdateReadme.networkLink))
        (UpdateReadme.networkLink f) := UnifiApis.strContains_joinNL hf
    have hne : UnifiApis.joinNL (ns.map UpdateReadme.networkLink) ≠ "" :=
      UnifiApis.joinNL_map_ne_empty hf UnifiApis.networkLink_ne_empty
    simp only [UpdateReadme.readme_content]
    rw [if_neg hne]
    repeat first
      | exact UnifiApis.strContains_at _ hj
      | apply UnifiApis.strContains_there _
  · intro f hf
    have hj : UnifiApis.strContains
        (UnifiApis.joinNL (ps.map UpdateReadme.protectLink))
        (UpdateReadme.protectLink f) := UnifiApis.strContains_joinNL hf
    have hne : UnifiApis.joinNL (ps.map UpdateReadme.protectLink) ≠ "" :=
      UnifiApis.joinNL_map_ne_empty hf UnifiApis.protectLink_ne_empty
    simp only [UpdateReadme.readme_content]
    rw [if_neg hne]
    repeat first
      | exact UnifiApis.strContains_at _ hj
      | apply UnifiApis.strContains_there _
  · cases ns with
    | nil => exact List.nil_infix
    | cons x xs =>
      have hne : UnifiApis.joinNL ((x :: xs).map UpdateReadme.networkLink) ≠ "" :=
        UnifiApis.joinNL_map_ne_empty (List.mem_cons_self x xs)
          UnifiApis.networkLink_ne_empty
      simp only [UpdateReadme.readme_content]
      rw [if_neg hne]
      repeat first
        | exact UnifiApis.strContains_here _ _
        | apply UnifiApis.strContains_there _
  · cases ps with
    | nil => exact List.nil_infix
    | cons x xs =>
      have hne : UnifiApis.joinNL ((x :: xs).map UpdateReadme.protectLink) ≠ "" :=
        UnifiApis.joinNL_map_ne_empty (List.mem_cons_self x xs)
          UnifiApis.protectLink_ne_empty
      simp only [UpdateReadme.readme_content]
      rw [if_neg hne]
      repeat first
        | exact UnifiApis.strContains_here _ _
        | apply UnifiApis.strContains_there _
  · intro f fs hns
    subst hns
    simp only [UpdateReadme.readme_content]
    repeat first
      | exact UnifiApis.strContains_run3p _ _ _
          (UnifiApis.strPrefix_extend _ (by decide))
      | apply UnifiApis.strContains_there _
  · intro f fs hps
    subst hps
    simp only [UpdateReadme.readme_content]
    repeat first
      | exact UnifiApis.strContains_run3p _ _ _
          (UnifiApis.strPrefix_extend _ (by decide))
      | apply UnifiApis.strContains_there _

set_option maxRecDepth 80000 in
/-- Counterexample for C5 as stated: the regenerated README is a pure function
of the two discovered version lists and embeds no generation or update date
stamp at all — on a concrete input its full text contains no decade string
202x, no occurrence of Date, and no occurrence of updated followed by a
space, so no rendering of a current date is present. -/
theorem C5_counterexample_no_date_stamp :
    ¬ UnifiApis.strContains (UpdateReadme.readme_content ["1.0.0.json"] []) ("202") ∧
    ¬ UnifiApis.strContains (UpdateReadme.readme_content ["1.0.0.json"] []) ("Date") ∧
    ¬ UnifiApis.strContains (UpdateReadme.readme_content ["1.0.0.json"] []) ("updated ") :=
  ⟨by decide, by decide, by decide⟩

/-- Witness for C5 on two discovered network versions. -/
theorem C5_witness :
    List.Sorted UnifiApis.specGE ["2.0.0.json", "1.0.0.json"] ∧
    UnifiApis.strContains
      (UpdateReadme.readme_content ["2.0.0.json", "1.0.0.json"] [])
      (UpdateReadme.networkLink ("2.0.0.json")) ∧
    UnifiApis.strContains
      (UpdateReadme.readme_content ["2.0.0.json", "1.0.0.json"] [])
      ("unifi-network/\n  ├── " ++ ("2.0.0.json" ++ "\n")) := by
  have h := C5_readme_lists_versions ["1.0.0.json", "2.0.0.json"] []
    ["2.0.0.json", "1.0.0.json"] [] rfl rfl
  exact ⟨h.1, h.2.2.2.2.1 ("2.0.0.json") (by simp),
    h.2.2.2.2.2.2.2.2.1 ("2.0.0.json") ["1.0.0.json"] rfl⟩

/-- Witness for C10 on a concrete directory. -/
theorem C10_witness :
    BuildDocs.get_spec_files (some ["1.0.0.json"]) =
      UpdateReadme.get_spec_files (some ["1.0.0.json"]) :=
  C10_get_spec_files_copies_agree (some ["1.0.0.json"])
